import Mathlib

/-!
Shallow embedding of the walcord token-rewriting core (src/main.py).

Python machine model used throughout:
* Python ints are `ℤ` (arbitrary precision, no overflow).
* Python floats are modelled as `ℚ`; the opacity grammar only produces finite
  decimal literals, on which the comparisons and the division by 100 performed
  by the code agree with rational arithmetic.
* Python exceptions are modelled with `Except Err`; each `Err` constructor
  corresponds to a raise site or builtin exception of the source.
* The global `colors` dict is passed explicitly as a `Palette` argument.
-/

/-- An RGB triple of Python ints (src/main.py stores palette colors as 3-tuples). -/
abbrev Color := ℤ × ℤ × ℤ

/-- A palette value: either an RGB triple or the raw wallpaper path string
(`hex_to_rgb_map` keeps the string for the `wallpaper`/`w` keys). -/
inductive PalVal where
  | color : Color → PalVal
  | wall : String → PalVal
deriving DecidableEq

/-- The `colors` dict: an association list from key to palette value. -/
abbrev Palette := List (String × PalVal)

/-- Exceptions of the source, one constructor per raise site / builtin error:
`unknownKey` (line 349), `invalidOpacity` (lines 355/360/364),
`wallpaperConflict` (line 384), `modifierArity` (lines 309/315/320),
`valueErrorInt` (a failing `int(...)` conversion), `valueErrorOther`
(unpacking / format-code ValueErrors on wallpaper strings), `attributeError`
(`None.replace` when a second modifier has no parenthesized arguments),
`typeError` (the one-argument call of `check_and_apply_second_modificator`
on the HLS paths, and int arithmetic on strings), `indexError`
(out-of-range tuple/string indexing). -/
inductive Err where
  | unknownKey
  | invalidOpacity
  | wallpaperConflict
  | modifierArity
  | valueErrorInt
  | valueErrorOther
  | attributeError
  | typeError
  | indexError
deriving DecidableEq

instance {ε α : Type} [DecidableEq ε] [DecidableEq α] : DecidableEq (Except ε α) := fun a b =>
  match a, b with
  | .error e, .error f =>
    if h : e = f then isTrue (by rw [h]) else isFalse (fun hh => h (Except.error.inj hh))
  | .ok x, .ok y =>
    if h : x = y then isTrue (by rw [h]) else isFalse (fun hh => h (Except.ok.inj hh))
  | .error _, .ok _ => isFalse (fun hh => Except.noConfusion hh)
  | .ok _, .error _ => isFalse (fun hh => Except.noConfusion hh)

/-- Python `str.lower()` on ASCII text, character by character. -/
def pyLower (s : String) : String := String.mk (s.data.map Char.toLower)

/-- Python `str.replace(c, "")` for a single-character needle (the only form
of `replace` the source uses): delete every occurrence of the character. -/
def removeChar (c : Char) (s : String) : String :=
  String.mk (s.data.filter (fun x => !(x == c)))

/-- Auxiliary scan for `splitComma`, carrying the reversed current chunk. -/
def splitCommaAux (acc : List Char) : List Char → List String
  | [] => [String.mk acc.reverse]
  | c :: rest =>
    if c == ',' then String.mk acc.reverse :: splitCommaAux [] rest
    else splitCommaAux (c :: acc) rest

/-- Python `str.split(",")`: the empty string yields `[""]`, and every comma
separates two (possibly empty) chunks. -/
def splitComma (s : String) : List String := splitCommaAux [] s.data

/-- The second-modifier record `{"pos": ..., "mod": ..., "type": ...}`. -/
structure ScondMod where
  pos : ℤ
  mod : ℤ
  type : Option String
deriving DecidableEq

/-- The default second-modifier argument `{"pos": 0, "mod": 0, "type": None}`
shared by all the `return_*_string` functions (source lines 211-269). -/
def defaultScondMod : ScondMod := ⟨0, 0, none⟩

/-- Python truthiness of a palette value: a 3-tuple is always truthy, a string
is falsy exactly when empty (used by `if not first_arg_values`, line 348). -/
def palFalsy : PalVal → Bool
  | .color _ => false
  | .wall s => s == ""

/-- `colors.get(key)` followed by the `if not first_arg_values` truthiness test
of src/main.py lines 347-349: a missing or falsy entry yields `none`. -/
def lookupPalette (pal : Palette) (k : String) : Option PalVal :=
  match pal.lookup k with
  | some v => if palFalsy v then none else some v
  | none => none

/-- Value of a list of decimal digit characters. -/
def digitsToNat (cs : List Char) : ℕ :=
  cs.foldl (fun a c => 10 * a + (c.toNat - 48)) 0

/-- Python `float()` restricted to the decimal literals the opacity grammar
`\d+(\.\d+)?` can produce (plus the default literal `"1.0"`); any other
string is rejected, matching the `except` branch of `remap_key`. -/
def pyFloat (s : String) : Option ℚ :=
  let cs := s.data
  let ip := cs.takeWhile Char.isDigit
  let rest := cs.dropWhile Char.isDigit
  if ip.isEmpty then none
  else
    match rest with
    | [] => some (mkRat (digitsToNat ip : ℤ) 1)
    | '.' :: fr =>
      if fr.isEmpty ∨ ¬ fr.all Char.isDigit then none
      else
        some (mkRat ((digitsToNat ip * 10 ^ fr.length + digitsToNat fr : ℕ) : ℤ) (10 ^ fr.length))
    | _ => none

/-- Opacity normalization, src/main.py lines 353-361: negative values raise,
values in (1, 100] are divided by 100, values above 100 raise, the rest pass
through.  The two `opacity = 1.0` assignments before the raises are dead
stores: the raise propagates out of `remap_key` (re-raised by the `except`
branch), so no fallback value is ever returned. -/
def normalizeOpacity (v : ℚ) : Except Err ℚ :=
  if v < 0 then .error .invalidOpacity
  else if 1 < v ∧ v ≤ 100 then .ok (v / 100)
  else if 100 < v then .error .invalidOpacity
  else .ok v

/-- The whole opacity block of `remap_key` (lines 350-364): a missing group 2
defaults to `"1.0"`, the literal is converted with `float` and normalized;
any failure surfaces as the `InvalidOpacity` ValueError of line 364. -/
def opacityStage (g2 : Option String) : Except Err ℚ :=
  let s := g2.getD "1.0"
  match pyFloat s with
  | none => .error .invalidOpacity
  | some v => normalizeOpacity v

/-- Second-modifier name extraction (line 369): strip parentheses, delete
digits and commas, delete spaces. -/
def scondNameOf (s : String) : String :=
  removeChar ' '
    (String.mk ((removeChar ')' (removeChar '(' s)).data.filter
      (fun c => !(c.isDigit || c == ','))))

/-- Argument splitting shared by `add_modificator`/`sub_modificator`
(lines 307/313): strip spaces and parentheses, split on commas. -/
def splitArgs (s : String) : List String :=
  splitComma (removeChar ')' (removeChar '(' (removeChar ' ' s)))

/-- Number of comma-separated arguments `add_modificator`/`sub_modificator` see. -/
def argCount (s : String) : ℕ := (splitArgs s).length

/-- Python `int()` on a decimal string: optional sign, then digits. -/
def pyInt (s : String) : Option ℤ :=
  let cs := s.data
  match cs with
  | '-' :: r => if r ≠ [] ∧ r.all Char.isDigit then some (-(digitsToNat r : ℤ)) else none
  | '+' :: r => if r ≠ [] ∧ r.all Char.isDigit then some ((digitsToNat r : ℤ)) else none
  | _ => if cs ≠ [] ∧ cs.all Char.isDigit then some ((digitsToNat cs : ℤ)) else none

/-- `add_modificator` (lines 305-310).  `params` is `match.group(5)`, which is
`None` when the second modifier has no parenthesized arguments; `None.replace`
then raises AttributeError.  A split of length other than 2 raises the arity
ValueError; a non-integer argument makes `int()` raise ValueError. -/
def add_modificator (params : Option String) : Except Err ScondMod :=
  match params with
  | none => .error .attributeError
  | some s =>
    match splitArgs s with
    | [a, b] =>
      match pyInt a, pyInt b with
      | some x, some y => .ok ⟨x, y, some "add"⟩
      | _, _ => .error .valueErrorInt
    | _ => .error .modifierArity

/-- `sub_modificator` (lines 312-316): same as add, with the delta negated. -/
def sub_modificator (params : Option String) : Except Err ScondMod :=
  match params with
  | none => .error .attributeError
  | some s =>
    match splitArgs s with
    | [a, b] =>
      match pyInt a, pyInt b with
      | some x, some y => .ok ⟨x, -1 * y, some "sub"⟩
      | _, _ => .error .valueErrorInt
    | _ => .error .modifierArity

/-- `invert_modificator` (lines 318-321): any truthy `params` raises the arity
ValueError (`None` and the empty string are falsy). -/
def invert_modificator (params : Option String) : Except Err ScondMod :=
  match params with
  | none => .ok ⟨0, 0, some "invert"⟩
  | some s => if s = "" then .ok ⟨0, 0, some "invert"⟩ else .error .modifierArity

/-- Key membership of the `SECOND_MODIFIERS` dict (lines 324-333). -/
def secondModifiersContains (s : String) : Bool :=
  s == ".add" || s == ".sub" || s == ".invert" || s == ".a" || s == ".s" || s == ".i"

/-- Value lookup of the `SECOND_MODIFIERS` dict followed by the call on the raw
parameter text. -/
def secondModifiersApply (s : String) (params : Option String) : Except Err ScondMod :=
  match s with
  | ".add" => add_modificator params
  | ".a" => add_modificator params
  | ".sub" => sub_modificator params
  | ".s" => sub_modificator params
  | ".invert" => invert_modificator params
  | ".i" => invert_modificator params
  | _ => .ok defaultScondMod

/-- Lines 372-381 of `remap_key`: start from the default record, and when a
second modifier is present (Python truthiness) whose stripped name is a known
key, run the corresponding modificator on the raw parameter text. -/
def secondModStage (secondModifer : Option String) (rawParams : Option String) :
    Except Err ScondMod :=
  match secondModifer with
  | none => .ok defaultScondMod
  | some sm =>
    if sm ≠ "" ∧ secondModifiersContains (scondNameOf sm) then
      secondModifiersApply (scondNameOf sm) rawParams
    else .ok defaultScondMod

/-- `add_to_color_tuple` (lines 196-199): `color[pos] += value` on the
3-element list, with Python's negative-index wrap-around; indices outside
-3..2 raise IndexError, and `+=` of an int onto a character of a wallpaper
string raises TypeError. -/
def add_to_color_tuple (v : PalVal) (value : ℤ) (pos : ℤ) : Except Err PalVal :=
  match v with
  | .wall _ => .error .typeError
  | .color (r, g, b) =>
    let idx := if pos < 0 then pos + 3 else pos
    if idx = 0 then .ok (.color (r + value, g, b))
    else if idx = 1 then .ok (.color (r, g + value, b))
    else if idx = 2 then .ok (.color (r, g, b + value))
    else .error .indexError

/-- `invert_color` (lines 201-202): `tuple(255 - i for i in color)`. -/
def invert_color (c : Color) : Color := (255 - c.1, 255 - c.2.1, 255 - c.2.2)

/-- `check_and_apply_second_modificator` (lines 204-209).  Inverting the
wallpaper string raises TypeError (`255 - character`). -/
def check_and_apply_second_modificator (color_tuple : PalVal) (scond_mod : ScondMod) :
    Except Err PalVal :=
  if scond_mod.type = some "add" ∨ scond_mod.type = some "sub" then
    add_to_color_tuple color_tuple scond_mod.mod scond_mod.pos
  else if scond_mod.type = some "invert" then
    match color_tuple with
    | .color c => .ok (.color (invert_color c))
    | .wall _ => .error .typeError
  else .ok color_tuple

/-- `rgb_to_hls` (lines 184-194), inlining `colorsys.rgb_to_hls`: channels are
scaled to [0,1] and the middle component of the result is lightness. -/
def rgb_to_hls (color : Color) : ℚ × ℚ × ℚ :=
  let r : ℚ := (color.1 : ℚ) / 255
  let g : ℚ := (color.2.1 : ℚ) / 255
  let b : ℚ := (color.2.2 : ℚ) / 255
  let maxc := max r (max g b)
  let minc := min r (min g b)
  let l := (minc + maxc) / 2
  if minc = maxc then (0, l, 0)
  else
    let rangec := maxc - minc
    let s := if l ≤ 1 / 2 then rangec / (maxc + minc) else rangec / (2 - maxc - minc)
    let rc := (maxc - r) / rangec
    let gc := (maxc - g) / rangec
    let bc := (maxc - b) / rangec
    let h := if r = maxc then bc - gc else if g = maxc then 2 + rc - bc else 4 + gc - rc
    (Int.fract (h / 6), l, s)

/-- Python `str(float)` / f-string interpolation of a nonnegative finite
decimal rational: shortest exact decimal form with at least one fractional
digit (`1.0`, `0.5`, `0.07`, ...). -/
def pyFloatReprAux (q : ℚ) : String :=
  let k := (((List.range 40).find? (fun k => 10 ^ k % q.den == 0)).getD 0)
  let m := q.num.toNat * (10 ^ k / q.den)
  if k = 0 then toString m ++ ".0"
  else
    let digits := toString (m % 10 ^ k)
    toString (m / 10 ^ k) ++ "." ++ String.mk (List.replicate (k - digits.length) '0') ++ digits

/-- Python `str` of a float modelled as a rational. -/
def pyFloatRepr (q : ℚ) : String :=
  if q < 0 then "-" ++ pyFloatReprAux (-q) else pyFloatReprAux q

/-- Lowercase hexadecimal digit characters. -/
def hexDigitChar (n : ℕ) : Char :=
  match n with
  | 0 => '0' | 1 => '1' | 2 => '2' | 3 => '3' | 4 => '4'
  | 5 => '5' | 6 => '6' | 7 => '7' | 8 => '8' | 9 => '9'
  | 10 => 'a' | 11 => 'b' | 12 => 'c' | 13 => 'd' | 14 => 'e' | 15 => 'f'
  | _ => '*'

/-- Hex digit expansion of a natural number (fuel-driven; the fuel `n` always
suffices because the digit count of `n` is at most `n` for positive `n`). -/
def natHexAux : ℕ → ℕ → List Char
  | 0, _ => []
  | fuel + 1, n => if n = 0 then [] else natHexAux fuel (n / 16) ++ [hexDigitChar (n % 16)]

/-- Lowercase hexadecimal representation of a natural number. -/
def natHexStr (n : ℕ) : String :=
  if n = 0 then "0" else String.mk (natHexAux n n)

/-- Left-pad a string with zeros to the given width. -/
def padLeftZeros (s : String) (w : ℕ) : String :=
  String.mk (List.replicate (w - s.length) '0') ++ s

/-- Python `f"{n:02x}"`: lowercase hex, zero-padded to total width 2 (for a
negative number the sign counts toward the width). -/
def pyHex02 (n : ℤ) : String :=
  if n < 0 then "-" ++ padLeftZeros (natHexStr n.natAbs) 1
  else padLeftZeros (natHexStr n.toNat) 2

/-- Component access in the `f"...{color_tuple[i]}..."` interpolations: an int
channel prints as its decimal form; a wallpaper string yields its i-th
character, raising IndexError past the end. -/
def componentStr (v : PalVal) (i : ℕ) : Except Err String :=
  match v with
  | .color (r, g, b) =>
    if i = 0 then .ok (toString r)
    else if i = 1 then .ok (toString g)
    else if i = 2 then .ok (toString b)
    else .error .indexError
  | .wall s =>
    match s.data.get? i with
    | some c => .ok (String.singleton c)
    | none => .error .indexError

/-- `return_rgba_string` (lines 211-213). -/
def return_rgba_string (ct : PalVal) (opacity : ℚ) (scond_mod : ScondMod) :
    Except Err String := do
  let v ← check_and_apply_second_modificator ct scond_mod
  let c0 ← componentStr v 0
  let c1 ← componentStr v 1
  let c2 ← componentStr v 2
  .ok ("rgba(" ++ c0 ++ "," ++ c1 ++ "," ++ c2 ++ "," ++ pyFloatRepr opacity ++ ")")

/-- `return_rgb_string` (lines 215-217). -/
def return_rgb_string (ct : PalVal) (opacity : ℚ) (scond_mod : ScondMod) :
    Except Err String := do
  let v ← check_and_apply_second_modificator ct scond_mod
  let c0 ← componentStr v 0
  let c1 ← componentStr v 1
  let c2 ← componentStr v 2
  .ok ("rgb(" ++ c0 ++ "," ++ c1 ++ "," ++ c2 ++ ")")

/-- `return_values_string` (lines 219-221), the `.rgba_values` shape. -/
def return_values_string (ct : PalVal) (opacity : ℚ) (scond_mod : ScondMod) :
    Except Err String := do
  let v ← check_and_apply_second_modificator ct scond_mod
  let c0 ← componentStr v 0
  let c1 ← componentStr v 1
  let c2 ← componentStr v 2
  .ok (c0 ++ "," ++ c1 ++ "," ++ c2 ++ "," ++ pyFloatRepr opacity)

/-- `return_values_without_opacity_string` (lines 223-225). -/
def return_values_without_opacity_string (ct : PalVal) (opacity : ℚ) (scond_mod : ScondMod) :
    Except Err String := do
  let v ← check_and_apply_second_modificator ct scond_mod
  let c0 ← componentStr v 0
  let c1 ← componentStr v 1
  let c2 ← componentStr v 2
  .ok (c0 ++ "," ++ c1 ++ "," ++ c2)

/-- `return_red_string` (lines 227-229). -/
def return_red_string (ct : PalVal) (opacity : ℚ) (scond_mod : ScondMod) :
    Except Err String := do
  let v ← check_and_apply_second_modificator ct scond_mod
  componentStr v 0

/-- `return_green_string` (lines 231-233). -/
def return_green_string (ct : PalVal) (opacity : ℚ) (scond_mod : ScondMod) :
    Except Err String := do
  let v ← check_and_apply_second_modificator ct scond_mod
  componentStr v 1

/-- `return_blue_string` (lines 235-237). -/
def return_blue_string (ct : PalVal) (opacity : ℚ) (scond_mod : ScondMod) :
    Except Err String := do
  let v ← check_and_apply_second_modificator ct scond_mod
  componentStr v 2

/-- `return_opacity_string` (lines 239-241): the modifier is applied (its
failures propagate) but only the opacity is printed. -/
def return_opacity_string (ct : PalVal) (opacity : ℚ) (scond_mod : ScondMod) :
    Except Err String := do
  let _ ← check_and_apply_second_modificator ct scond_mod
  .ok (pyFloatRepr opacity)

/-- `return_hex_string` (lines 243-245): `f"#{r:02x}{g:02x}{b:02x}"`; the `x`
format code on a wallpaper character raises a ValueError. -/
def return_hex_string (ct : PalVal) (opacity : ℚ) (scond_mod : ScondMod) :
    Except Err String := do
  let v ← check_and_apply_second_modificator ct scond_mod
  match v with
  | .color (r, g, b) => .ok ("#" ++ pyHex02 r ++ pyHex02 g ++ pyHex02 b)
  | .wall _ => .error .valueErrorOther

/-- `return_hex_values_string` (lines 247-249). -/
def return_hex_values_string (ct : PalVal) (opacity : ℚ) (scond_mod : ScondMod) :
    Except Err String := do
  let v ← check_and_apply_second_modificator ct scond_mod
  match v with
  | .color (r, g, b) => .ok (pyHex02 r ++ pyHex02 g ++ pyHex02 b)
  | .wall _ => .error .valueErrorOther

/-- `return_hsl_string` (lines 251-253).  Line 252 evaluates
`rgb_to_hls(color_tuple)` and then calls `check_and_apply_second_modificator`
with that single argument; the function requires two positional arguments, so
Python raises TypeError on every call reaching this point (for a wallpaper
string, unpacking inside `rgb_to_hls` raises first: TypeError on a 3-character
string, ValueError otherwise). -/
def return_hsl_string (ct : PalVal) (opacity : ℚ) (scond_mod : ScondMod) :
    Except Err String :=
  match ct with
  | .color c =>
    let _ := rgb_to_hls c
    .error .typeError
  | .wall s => .error (if s.length = 3 then .typeError else .valueErrorOther)

/-- `return_h_from_hsl_string` (lines 255-257): same missing-argument call as
`return_hsl_string`, so it always raises. -/
def return_h_from_hsl_string (ct : PalVal) (opacity : ℚ) (scond_mod : ScondMod) :
    Except Err String :=
  match ct with
  | .color c =>
    let _ := rgb_to_hls c
    .error .typeError
  | .wall s => .error (if s.length = 3 then .typeError else .valueErrorOther)

/-- `return_s_from_hsl_string` (lines 259-261): always raises, as above. -/
def return_s_from_hsl_string (ct : PalVal) (opacity : ℚ) (scond_mod : ScondMod) :
    Except Err String :=
  match ct with
  | .color c =>
    let _ := rgb_to_hls c
    .error .typeError
  | .wall s => .error (if s.length = 3 then .typeError else .valueErrorOther)

/-- `return_l_from_hsl_string` (lines 263-265): always raises, as above. -/
def return_l_from_hsl_string (ct : PalVal) (opacity : ℚ) (scond_mod : ScondMod) :
    Except Err String :=
  match ct with
  | .color c =>
    let _ := rgb_to_hls c
    .error .typeError
  | .wall s => .error (if s.length = 3 then .typeError else .valueErrorOther)

/-- `return_hsl_values_string` (lines 267-269): always raises, as above. -/
def return_hsl_values_string (ct : PalVal) (opacity : ℚ) (scond_mod : ScondMod) :
    Except Err String :=
  match ct with
  | .color c =>
    let _ := rgb_to_hls c
    .error .typeError
  | .wall s => .error (if s.length = 3 then .typeError else .valueErrorOther)

/-- Key membership of the `FIRST_MODIFIERS` dict (lines 271-303). -/
def firstModifiersContains (s : String) : Bool :=
  s == "DEFAULT" || s == ".rgba" || s == ".rgb" || s == ".hex" || s == ".hsl" ||
  s == ".rgba_values" || s == ".rgb_values" || s == ".hex_values" || s == ".hsl_values" ||
  s == ".r" || s == ".red" || s == ".g" || s == ".green" || s == ".b" || s == ".blue" ||
  s == ".o" || s == ".opacity" || s == ".h" || s == ".hue" || s == ".s" || s == ".saturation" ||
  s == ".l" || s == ".lightness"

/-- Value lookup of the `FIRST_MODIFIERS` dict; `"DEFAULT"` and any other key
map to `return_rgba_string` (`remap_key` only calls this on keys that pass
`firstModifiersContains`). -/
def firstModifiersApply (s : String) : PalVal → ℚ → ScondMod → Except Err String :=
  match s with
  | ".rgba" => return_rgba_string
  | ".rgb" => return_rgb_string
  | ".hex" => return_hex_string
  | ".hsl" => return_hsl_string
  | ".rgba_values" => return_values_string
  | ".rgb_values" => return_values_without_opacity_string
  | ".hex_values" => return_hex_values_string
  | ".hsl_values" => return_hsl_values_string
  | ".r" => return_red_string
  | ".red" => return_red_string
  | ".g" => return_green_string
  | ".green" => return_green_string
  | ".b" => return_blue_string
  | ".blue" => return_blue_string
  | ".o" => return_opacity_string
  | ".opacity" => return_opacity_string
  | ".h" => return_h_from_hsl_string
  | ".hue" => return_h_from_hsl_string
  | ".s" => return_s_from_hsl_string
  | ".saturation" => return_s_from_hsl_string
  | ".l" => return_l_from_hsl_string
  | ".lightness" => return_l_from_hsl_string
  | _ => return_rgba_string

/-- The parsed regex groups of one token match of
`KEY\((\w+)(?:,\s*(\d+(?:\.\d+)?))?\)(\.\w+)?(\.\w+(\(...\))?)?`:
`g1` the key, `g2` the opacity literal, `g3` the first modifier (with its
dot), `g4` the second modifier (dot, name and parenthesized text), `g5` the
parenthesized argument text alone. -/
structure TokenMatch where
  g1 : String
  g2 : Option String
  g3 : Option String
  g4 : Option String
  g5 : Option String
deriving DecidableEq

/-- `remap_key` (lines 339-387), on the match groups: palette lookup, opacity
normalization, second-modifier resolution (which runs before the wallpaper
check), the wallpaper conflict check, and first-modifier dispatch.  The
default dispatch (line 387) calls `FIRST_MODIFIERS['DEFAULT']`, that is
`return_rgba_string`, with only two arguments, so the shared default
`{"pos": 0, "mod": 0, "type": None}` is used and the parsed second modifier is
not applied. -/
def remap_key (pal : Palette) (m : TokenMatch) : Except Err String :=
  let firstArg := pyLower m.g1
  match lookupPalette pal firstArg with
  | none => .error .unknownKey
  | some firstArgValues =>
    match opacityStage m.g2 with
    | .error e => .error e
    | .ok opacity =>
      let firstModifier := m.g3.map pyLower
      let secondModifer := m.g4.map pyLower
      match secondModStage secondModifer m.g5 with
      | .error e => .error e
      | .ok scondMod =>
        if (firstArg = "wallpaper" ∨ firstArg = "w") ∧ (opacity ≠ 1 ∨ firstModifier.isSome) then
          .error .wallpaperConflict
        else
          match firstModifier with
          | some fm =>
            if firstModifiersContains fm then firstModifiersApply fm firstArgValues opacity scondMod
            else return_rgba_string firstArgValues opacity defaultScondMod
          | none => return_rgba_string firstArgValues opacity defaultScondMod

/-- Python `\w` (ASCII range): letters, digits, underscore. -/
def isWordChar (c : Char) : Bool := c.isAlphanum || c == '_'

/-- Python `\s` (ASCII range). -/
def isSpaceChar (c : Char) : Bool :=
  c == ' ' || c == '\t' || c == '\n' || c == '\r' || c == '\x0b' || c == '\x0c'

/-- The `(?:,\s*(\d+(?:\.\d+)?))?\)` tail of the token regex, starting right
after the key: either an immediate `)`, or a comma, optional spaces, a decimal
literal (captured as group 2) and then `)`.  Returns the captured group and
the remaining characters, or `none` when the whole token match fails. -/
def parseOpacityPart (cs : List Char) : Option (Option String × List Char) :=
  match cs with
  | ')' :: rest => some (none, rest)
  | ',' :: rest =>
    let r1 := rest.dropWhile isSpaceChar
    let ds := r1.takeWhile Char.isDigit
    let r2 := r1.dropWhile Char.isDigit
    if ds.isEmpty then none
    else
      match r2 with
      | '.' :: r3 =>
        let fs := r3.takeWhile Char.isDigit
        let r4 := r3.dropWhile Char.isDigit
        if fs.isEmpty then none
        else
          match r4 with
          | ')' :: rest2 => some (some (String.mk (ds ++ '.' :: fs)), rest2)
          | _ => none
      | ')' :: rest2 => some (some (String.mk ds), rest2)
      | _ => none
  | _ => none

/-- One `(\.\w+)` group: a dot followed by at least one word character;
returns the group (dot included) and the rest, or leaves the input untouched. -/
def parseDotWord (cs : List Char) : Option String × List Char :=
  match cs with
  | '.' :: rest =>
    let w := rest.takeWhile isWordChar
    if w.isEmpty then (none, cs)
    else (some (String.mk ('.' :: w)), rest.dropWhile isWordChar)
  | _ => (none, cs)

/-- The optional `(\.\d+)?` fragment inside group 5: nothing, a dot followed
by digits, or a dead end (`none`) when a dot is not followed by a digit —
in that case no alternative continuation of the regex can succeed. -/
def parseFracThen (cs : List Char) : Option (List Char × List Char) :=
  match cs with
  | '.' :: r =>
    let fs := r.takeWhile Char.isDigit
    if fs.isEmpty then none
    else some ('.' :: fs, r.dropWhile Char.isDigit)
  | _ => some ([], cs)

/-- Group 5 of the token regex: `\(\d+(?:\.\d+)?(?:,\s*\d+(?:\.\d+)?)?\)`.
On failure nothing is consumed (the optional group simply does not match). -/
def parseParenArgs (cs : List Char) : Option String × List Char :=
  match cs with
  | '(' :: rest =>
    let d1 := rest.takeWhile Char.isDigit
    let r1 := rest.dropWhile Char.isDigit
    if d1.isEmpty then (none, cs)
    else
      match parseFracThen r1 with
      | none => (none, cs)
      | some (f1, r2) =>
        match r2 with
        | ')' :: rest2 => (some (String.mk ('(' :: (d1 ++ f1) ++ [')'])), rest2)
        | ',' :: r3 =>
          let sp := r3.takeWhile isSpaceChar
          let r4 := r3.dropWhile isSpaceChar
          let d2 := r4.takeWhile Char.isDigit
          let r5 := r4.dropWhile Char.isDigit
          if d2.isEmpty then (none, cs)
          else
            match parseFracThen r5 with
            | none => (none, cs)
            | some (f2, r6) =>
              match r6 with
              | ')' :: rest2 =>
                (some (String.mk ('(' :: (d1 ++ f1 ++ ',' :: (sp ++ d2 ++ f2)) ++ [')'])), rest2)
              | _ => (none, cs)
        | _ => (none, cs)
  | _ => (none, cs)

/-- The groups after `KEY(<key>`: opacity part, optional first dotted
identifier (group 3), optional second dotted identifier with its optional
parenthesized arguments (groups 4 and 5). -/
def matchInner (g1 : String) (cs : List Char) : Option (TokenMatch × List Char) :=
  match parseOpacityPart cs with
  | none => none
  | some (g2, cs2) =>
    match parseDotWord cs2 with
    | (none, _) => some (⟨g1, g2, none, none, none⟩, cs2)
    | (some w3, cs3) =>
      match parseDotWord cs3 with
      | (none, _) => some (⟨g1, g2, some w3, none, none⟩, cs3)
      | (some w4, cs4) =>
        match parseParenArgs cs4 with
        | (none, _) => some (⟨g1, g2, some w3, some w4, none⟩, cs4)
        | (some g5, cs5) => some (⟨g1, g2, some w3, some (w4 ++ g5), some g5⟩, cs5)

/-- One attempted match of the full token regex (case-insensitive `KEY(`,
then a nonempty `\w+` key, then the rest); returns the match groups and the
characters after the match.  The greedy character classes of the source regex
make matching deterministic, so no backtracking is modelled. -/
def matchToken (cs : List Char) : Option (TokenMatch × List Char) :=
  match cs with
  | k :: e :: y :: p :: rest =>
    if k.toLower == 'k' && e.toLower == 'e' && y.toLower == 'y' && p == '(' then
      let g1 := rest.takeWhile isWordChar
      if g1.isEmpty then none
      else matchInner (String.mk g1) (rest.dropWhile isWordChar)
    else none
  | _ => none

/-- The `re.sub` scan of `replace_key` (line 398): left to right, replacing
each non-overlapping token match by the `remap_key` result and copying other
characters; the first exception raised by `remap_key` aborts the whole call.
The fuel is the remaining length; every match consumes at least the four
characters `KEY(`, so the fuel never runs out when started at the input
length. -/
def replaceKeyAux (pal : Palette) : ℕ → List Char → Except Err (List Char)
  | _, [] => .ok []
  | 0, cs => .ok cs
  | fuel + 1, c :: rest =>
    match matchToken (c :: rest) with
    | some (tm, rest2) => do
      let s ← remap_key pal tm
      let tail ← replaceKeyAux pal fuel rest2
      .ok (s.data ++ tail)
    | none => do
      let tail ← replaceKeyAux pal fuel rest
      .ok (c :: tail)

/-- `replace_key` (lines 389-398). -/
def replace_key (pal : Palette) (text : String) : Except Err String :=
  (replaceKeyAux pal text.data.length text.data).map String.mk

/-- Whether the guard regex `KEY\([^)]*\)` (case-insensitive) matches at the
head of the character list: literal `key(` and some later `)`. -/
def startsKeyPattern : List Char → Bool
  | k :: e :: y :: p :: rest =>
    k.toLower == 'k' && e.toLower == 'e' && y.toLower == 'y' && p == '(' && rest.contains ')'
  | _ => false

/-- `re.search` of the guard regex over a whole character list. -/
def hasKeyPatternAux : List Char → Bool
  | [] => false
  | c :: rest => startsKeyPattern (c :: rest) || hasKeyPatternAux rest

/-- The `re.search(r'KEY\([^)]*\)', line, re.IGNORECASE)` test of line 455. -/
def containsKeyPattern (s : String) : Bool := hasKeyPatternAux s.data

/-- One recorded line diagnostic: 1-based line number, source file label, and
the modelled exception (`logging.error` of line 462). -/
abbrev LineErr := ℕ × String × Err

/-- The rewriter result: the accumulated output text, the line-scoped errors,
and the low-severity `KEY parse error` warnings of line 459 (1-based line
number and source label). -/
structure RewriteResult where
  output : String
  errors : List LineErr
  warnings : List (ℕ × String)
deriving DecidableEq

/-- The enumerated loop of `try_replace_key_in_theme` (lines 452-466), with
`n` the 0-based index of the first remaining line.  A line without the guard
pattern is passed through with the terminator appended; otherwise the line is
rewritten, a rewrite identical to the original line logs a warning, and an
exception logs a line-scoped error while contributing nothing to the output
(the `except` branch of lines 461-462 does not append to `output`). -/
def tryReplaceAux (pal : Palette) (filename end_ : String) : ℕ → List String → RewriteResult
  | _, [] => ⟨"", [], []⟩
  | n, line :: rest =>
    let r := tryReplaceAux pal filename end_ (n + 1) rest
    if containsKeyPattern line then
      match replace_key pal line with
      | .ok repl =>
        let newLine := repl ++ end_
        ⟨newLine ++ r.output, r.errors,
          if newLine = line ++ end_ then (n + 1, filename) :: r.warnings else r.warnings⟩
      | .error e => ⟨r.output, (n + 1, filename, e) :: r.errors, r.warnings⟩
    else ⟨line ++ end_ ++ r.output, r.errors, r.warnings⟩

/-- `try_replace_key_in_theme` (lines 452-466). -/
def try_replace_key_in_theme (pal : Palette) (lines : List String)
    (filename : String) (end_ : String) : RewriteResult :=
  tryReplaceAux pal filename end_ 0 lines

/-- What one input line contributes to the rewriter output: itself (plus
terminator) without the guard pattern, the rewritten text on success, nothing
on failure.  A function of the single line only. -/
def lineContribution (pal : Palette) (end_ : String) (line : String) : String :=
  if containsKeyPattern line then
    match replace_key pal line with
    | .ok repl => repl ++ end_
    | .error _ => ""
  else line ++ end_

/-- The modelled exception one line produces, if any. -/
def lineError (pal : Palette) (line : String) : Option Err :=
  if containsKeyPattern line then
    match replace_key pal line with
    | .ok _ => none
    | .error e => some e
  else none

/-- The line-scoped error log, derived line by line. -/
def enumErrors (pal : Palette) (filename : String) : ℕ → List String → List LineErr
  | _, [] => []
  | n, line :: rest =>
    match lineError pal line with
    | some e => (n + 1, filename, e) :: enumErrors pal filename (n + 1) rest
    | none => enumErrors pal filename (n + 1) rest

/-- Ordered concatenation of a list of strings. -/
def concatAll : List String → String
  | [] => ""
  | s :: rest => s ++ concatAll rest

/-- Value of a single hexadecimal digit character, upper or lower case. -/
def hexCharVal (c : Char) : Option ℕ :=
  if c.isDigit then some (c.toNat - 48)
  else if 'a' ≤ c ∧ c ≤ 'f' then some (c.toNat - 87)
  else if 'A' ≤ c ∧ c ≤ 'F' then some (c.toNat - 55)
  else none

/-- Value of a nonempty list of hexadecimal digit characters. -/
def hexDigitsVal (cs : List Char) : Option ℕ :=
  if cs.isEmpty then none
  else
    cs.foldl
      (fun acc c =>
        match acc, hexCharVal c with
        | some a, some v => some (16 * a + v)
        | _, _ => none)
      (some 0)

/-- Python `int(s, 16)` on the short slices `hex_to_rgb_map` produces:
optional sign, optional `0x`/`0X` prefix, then hexadecimal digits; anything
else raises ValueError (modelled as `none`). -/
def pyIntBase16 (s : String) : Option ℤ :=
  let cs := s.data
  let signed : ℤ × List Char :=
    match cs with
    | '-' :: r => (-1, r)
    | '+' :: r => (1, r)
    | _ => (1, cs)
  let cs2 :=
    match signed.2 with
    | '0' :: x :: r => if x == 'x' || x == 'X' then r else signed.2
    | _ => signed.2
  (hexDigitsVal cs2).map (fun n => signed.1 * (n : ℤ))

/-- The per-entry conversion of `hex_to_rgb_map` (line 175):
`tuple(int(value.lstrip('#')[i:i+2], 16) for i in (0, 2, 4))`, where a failing
`int` conversion raises ValueError (modelled as `none`). -/
def hex_to_rgb_entry (s : String) : Option Color :=
  let t := s.data.dropWhile (fun c => c == '#')
  match pyIntBase16 (String.mk (t.take 2)), pyIntBase16 (String.mk ((t.drop 2).take 2)),
      pyIntBase16 (String.mk ((t.drop 4).take 2)) with
  | some r, some g, some b => some (r, g, b)
  | _, _, _ => none

/-- `hex_to_rgb_map` (lines 163-182) over an association list: entries that
convert become colors, failing entries are kept as raw strings for the
`wallpaper`/`w` keys and dropped (with a warning) otherwise. -/
def hex_to_rgb_map (entries : List (String × String)) : Palette :=
  entries.filterMap fun e =>
    match hex_to_rgb_entry e.2 with
    | some c => some (e.1, .color c)
    | none => if e.1 = "wallpaper" ∨ e.1 = "w" then some (e.1, .wall e.2) else none

/-- A one-color palette used by several concrete checks. -/
def palRed : Palette := [("a", PalVal.color (255, 0, 0))]

/-- A one-color palette with distinct channel values. -/
def palSmall : Palette := [("a", PalVal.color (10, 20, 30))]

/-- A palette holding only the wallpaper path. -/
def palWall : Palette := [("wallpaper", PalVal.wall "path")]

/-- C8: applying the `invert` second modifier twice returns the original RGB
triple, for all channel values in [0, 255]. -/
theorem C8_invert_involution (r g b : ℤ)
    (hr0 : 0 ≤ r) (hr1 : r ≤ 255) (hg0 : 0 ≤ g) (hg1 : g ≤ 255)
    (hb0 : 0 ≤ b) (hb1 : b ≤ 255) :
    invert_color (invert_color (r, g, b)) = (r, g, b) := by
  simp [invert_color]

/-- Witness for C8 at the concrete triple (0, 128, 255). -/
theorem C8_invert_involution_witness :
    invert_color (invert_color (0, 128, 255)) = (0, 128, 255) :=
  C8_invert_involution 0 128 255 (by norm_num) (by norm_num) (by norm_num)
    (by norm_num) (by norm_num) (by norm_num)

/-- C9: for every RGB triple, valid channel position and integer delta,
applying the `add` modifier and then the `sub` modifier with the same position
and delta (whose stored `mod` field is the negated delta, as built by
`sub_modificator`) restores the original triple exactly; no clamping is
applied to the intermediate value. -/
theorem C9_add_sub_cancel (r g b p d : ℤ) (h0 : 0 ≤ p) (h3 : p < 3) :
    (check_and_apply_second_modificator (PalVal.color (r, g, b)) ⟨p, d, some "add"⟩).bind
      (fun v => check_and_apply_second_modificator v ⟨p, -d, some "sub"⟩)
      = .ok (PalVal.color (r, g, b)) := by
  have hp : p = 0 ∨ p = 1 ∨ p = 2 := by omega
  rcases hp with h | h | h <;> subst h <;>
    simp [check_and_apply_second_modificator, add_to_color_tuple, Except.bind]

/-- Witness for C9 at the triple (10, 20, 30), position 0, delta 7. -/
theorem C9_add_sub_cancel_witness :
    (check_and_apply_second_modificator (PalVal.color (10, 20, 30)) ⟨0, 7, some "add"⟩).bind
      (fun v => check_and_apply_second_modificator v ⟨0, -7, some "sub"⟩)
      = .ok (PalVal.color (10, 20, 30)) :=
  C9_add_sub_cancel 10 20 30 0 7 (by norm_num) (by norm_num)

/-- C3 (amended): for a parsed opacity value v, values in [0, 1] pass through
unchanged, values in (1, 100] are divided by 100, and values below 0 or above
100 raise the opacity-validation failure — the raise propagates, so the token
does not resolve and no fallback opacity of 1.0 is produced. -/
theorem C3_opacity_normalization (v : ℚ) :
    (0 ≤ v → v ≤ 1 → normalizeOpacity v = .ok v)
    ∧ (1 < v → v ≤ 100 → normalizeOpacity v = .ok (v / 100))
    ∧ ((v < 0 ∨ 100 < v) → normalizeOpacity v = .error .invalidOpacity) := by
  refine ⟨fun h0 h1 => ?_, fun h0 h1 => ?_, fun h => ?_⟩ <;> unfold normalizeOpacity
  · rw [if_neg (by linarith), if_neg (by rintro ⟨h2, _⟩; linarith), if_neg (by linarith)]
  · rw [if_neg (by linarith), if_pos ⟨h0, h1⟩]
  · rcases h with h | h
    · rw [if_pos h]
    · rw [if_neg (by linarith), if_neg (by rintro ⟨_, h2⟩; linarith), if_pos h]

/-- Witness for C3 at v = 50: the percentage branch divides by 100. -/
theorem C3_opacity_normalization_witness :
    normalizeOpacity 50 = .ok (50 / 100) :=
  (C3_opacity_normalization 50).2.1 (by norm_num) (by norm_num)

/-- Counterexample for C3 as stated: with opacity literal 150 the token does
not resolve with opacity 1.0 — `remap_key` raises the opacity-validation
failure, so the error reaches the line-level channel and the token fails. -/
theorem C3_counterexample :
    remap_key palRed ⟨"a", some "150", none, none, none⟩ = .error .invalidOpacity := by
  decide

/-- C2 (code bug): every call of `return_hsl_string` on a palette color raises
TypeError — line 252 passes a single argument to the two-argument
`check_and_apply_second_modificator` — so `KEY(a).hsl` never yields
`hsl(h,l,s)`; in particular the concrete token `KEY(a).hsl` over the palette
`a = (255,0,0)` errors out instead of resolving. -/
theorem C2_hsl_always_raises :
    (∀ (c : Color) (op : ℚ) (sm : ScondMod),
      return_hsl_string (PalVal.color c) op sm = .error .typeError)
    ∧ remap_key palRed ⟨"a", none, some ".hsl", none, none⟩ = .error .typeError := by
  exact ⟨fun c op sm => rfl, by decide⟩

/-- C6 (amended): a wrong comma-separated argument count for `add`/`sub` (or
any truthy argument text for `invert`) raises the arity failure, but the
channel-index range 0-2 is not validated by the modifier parsers: an index of
3 or more passes them and only fails later, at apply time, with an index
error. -/
theorem C6_modifier_arity :
    (∀ s : String, argCount s ≠ 2 → add_modificator (some s) = .error .modifierArity)
    ∧ (∀ s : String, argCount s ≠ 2 → sub_modificator (some s) = .error .modifierArity)
    ∧ (∀ s : String, s ≠ "" → invert_modificator (some s) = .error .modifierArity)
    ∧ (∀ (c : Color) (p d : ℤ), 3 ≤ p →
        check_and_apply_second_modificator (PalVal.color c) ⟨p, d, some "add"⟩
          = .error .indexError) := by
  refine ⟨fun s h => ?_, fun s h => ?_, fun s h => ?_, fun c p d h => ?_⟩
  · unfold argCount at h
    simp only [add_modificator]
    rcases hs : splitArgs s with _ | ⟨a, _ | ⟨b, _ | ⟨x, l⟩⟩⟩ <;> rw [hs] at h <;> simp_all
  · unfold argCount at h
    simp only [sub_modificator]
    rcases hs : splitArgs s with _ | ⟨a, _ | ⟨b, _ | ⟨x, l⟩⟩⟩ <;> rw [hs] at h <;> simp_all
  · simp only [invert_modificator]
    rw [if_neg h]
  · obtain ⟨r, g, b⟩ := c
    have h0 : ¬(p < 0) := by omega
    have h1 : ¬(p = 0) := by omega
    have h2 : ¬(p = 1) := by omega
    have h3 : ¬(p = 2) := by omega
    simp [check_and_apply_second_modificator, add_to_color_tuple, h0, h1, h2, h3]

/-- Witness for C6: one argument for `add` raises the arity failure. -/
theorem C6_modifier_arity_witness :
    add_modificator (some "(5)") = .error .modifierArity :=
  C6_modifier_arity.1 "(5)" (by decide)

/-- Counterexample for C6 as stated: `add(3,1)` violates the channel-index
range but is accepted by `add_modificator`; the token then fails with an
index error, not with the arity failure. -/
theorem C6_counterexample :
    add_modificator (some "(3,1)") = .ok ⟨3, 1, some "add"⟩
    ∧ remap_key palSmall ⟨"a", none, some ".rgb", some ".add(3,1)", some "(3,1)"⟩
        = .error .indexError := by
  exact ⟨by decide, by decide⟩

/-- C5 (amended): for a token whose key is `wallpaper`/`w` (case-insensitive),
the wallpaper-conflict failure is raised exactly when the normalized opacity
differs from 1.0 or a (first) modifier is present — an explicit opacity that
normalizes to 1.0, alone, does not raise it; the second-modifier stage runs
first, so its own failures take precedence. -/
theorem C5_wallpaper_conflict (pal : Palette) (m : TokenMatch) (v : PalVal) (op : ℚ)
    (sm : ScondMod)
    (hkey : pyLower m.g1 = "wallpaper" ∨ pyLower m.g1 = "w")
    (hlook : lookupPalette pal (pyLower m.g1) = some v)
    (hop : opacityStage m.g2 = .ok op)
    (hsm : secondModStage (m.g4.map pyLower) m.g5 = .ok sm)
    (hcond : op ≠ 1 ∨ m.g3.isSome) :
    remap_key pal m = .error .wallpaperConflict := by
  have hcond2 : op ≠ 1 ∨ (m.g3.map pyLower).isSome := by
    rcases hcond with h | h
    · exact Or.inl h
    · right
      cases hg : m.g3
      · rw [hg] at h; simp at h
      · simp
  simp only [remap_key, hlook, hop, hsm]
  rw [if_pos ⟨hkey, hcond2⟩]

/-- Witness for C5: the token `KEY(wallpaper, 50)` raises the conflict. -/
theorem C5_wallpaper_conflict_witness :
    remap_key palWall ⟨"wallpaper", some "50", none, none, none⟩
      = .error .wallpaperConflict :=
  C5_wallpaper_conflict palWall ⟨"wallpaper", some "50", none, none, none⟩
    (PalVal.wall "path") (50 / 100) defaultScondMod
    (Or.inl (by decide)) (by decide) rfl (by decide) (Or.inl (by norm_num))

/-- Counterexample for C5 as stated: `KEY(wallpaper, 1.0)` specifies an
opacity, yet no conflict is raised — the token resolves (to an rgba string
built from the first characters of the wallpaper path). -/
theorem C5_counterexample :
    remap_key palWall ⟨"wallpaper", some "1.0", none, none, none⟩
      = .ok "rgba(p,a,t,1.0)" := by
  decide

/-- C10: a resolved token whose first modifier is absent or unrecognized
resolves through `FIRST_MODIFIERS['DEFAULT']`, that is `return_rgba_string`
called with the default second-modifier record, yielding
`rgba(r,g,b,opacity)` from the unmodified palette color — the parsed second
modifier `sm` does not appear in the result. -/
theorem C10_default_rgba (pal : Palette) (m : TokenMatch) (r g b : ℤ) (op : ℚ)
    (sm : ScondMod)
    (hlook : lookupPalette pal (pyLower m.g1) = some (PalVal.color (r, g, b)))
    (hop : opacityStage m.g2 = .ok op)
    (hsm : secondModStage (m.g4.map pyLower) m.g5 = .ok sm)
    (hnw : ¬((pyLower m.g1 = "wallpaper" ∨ pyLower m.g1 = "w") ∧ (op ≠ 1 ∨ m.g3.isSome)))
    (hfm : ∀ w, m.g3 = some w → firstModifiersContains (pyLower w) = false) :
    remap_key pal m
      = .ok ("rgba(" ++ toString r ++ "," ++ toString g ++ "," ++ toString b ++ ","
          ++ pyFloatRepr op ++ ")") := by
  have hnw2 : ¬((pyLower m.g1 = "wallpaper" ∨ pyLower m.g1 = "w")
      ∧ (op ≠ 1 ∨ (m.g3.map pyLower).isSome)) := by
    cases hg : m.g3 <;> rw [hg] at hnw <;> simp_all
  simp only [remap_key, hlook, hop, hsm]
  rw [if_neg hnw2]
  cases hg : m.g3 with
  | none => rfl
  | some w =>
    have hw := hfm w hg
    simp only [Option.map_some']
    rw [hw]
    rfl

/-- Witness for C10: an unrecognized first modifier `.foo` with a parsed
`.invert` second modifier still yields the plain default rgba string. -/
theorem C10_default_rgba_witness :
    remap_key palSmall ⟨"a", none, some ".foo", some ".invert", none⟩
      = .ok "rgba(10,20,30,1.0)" := by
  rw [C10_default_rgba palSmall ⟨"a", none, some ".foo", some ".invert", none⟩
    10 20 30 1 ⟨0, 0, some "invert"⟩ (by decide) (by decide) (by decide) (by decide)
    (by intro w hw; cases hw; decide)]
  decide

set_option maxRecDepth 8000 in
/-- Per-channel hex round trip: a channel value below 256 formats to exactly
two non-`#` characters and parses back to itself. -/
theorem hexChannelRound :
    ∀ n : ℕ, n < 256 →
      (pyHex02 (n : ℤ)).data.length = 2
      ∧ pyIntBase16 (pyHex02 (n : ℤ)) = some (n : ℤ)
      ∧ ((pyHex02 (n : ℤ)).data.all (fun c => !(c == '#'))) = true := by
  decide

/-- C7: for every color triple with channels in [0, 255], the lowercase
zero-padded `#rrggbb` string produced by the hex formatter parses back to the
same triple through the palette's hex-to-RGB conversion. -/
theorem C7_hex_round_trip (r g b : ℤ) (op : ℚ)
    (hr0 : 0 ≤ r) (hr1 : r ≤ 255) (hg0 : 0 ≤ g) (hg1 : g ≤ 255)
    (hb0 : 0 ≤ b) (hb1 : b ≤ 255) :
    ∃ s, return_hex_string (PalVal.color (r, g, b)) op defaultScondMod = .ok s
      ∧ hex_to_rgb_entry s = some (r, g, b) := by
  have er : ((r.toNat : ℕ) : ℤ) = r := Int.toNat_of_nonneg hr0
  have eg : ((g.toNat : ℕ) : ℤ) = g := Int.toNat_of_nonneg hg0
  have eb : ((b.toNat : ℕ) : ℤ) = b := Int.toNat_of_nonneg hb0
  have Hr := hexChannelRound r.toNat (by omega)
  have Hg := hexChannelRound g.toNat (by omega)
  have Hb := hexChannelRound b.toNat (by omega)
  rw [er] at Hr
  rw [eg] at Hg
  rw [eb] at Hb
  obtain ⟨a1, b1, hab1⟩ := List.length_eq_two.mp Hr.1
  obtain ⟨a2, b2, hab2⟩ := List.length_eq_two.mp Hg.1
  obtain ⟨a3, b3, hab3⟩ := List.length_eq_two.mp Hb.1
  refine ⟨"#" ++ pyHex02 r ++ pyHex02 g ++ pyHex02 b, rfl, ?_⟩
  have ha1 : (a1 == '#') = false := by
    have h3 := Hr.2.2
    rw [hab1] at h3
    simp only [List.all_cons, List.all_nil, Bool.and_true, Bool.and_eq_true,
      Bool.not_eq_true'] at h3
    exact h3.1
  have hsdata : ("#" ++ pyHex02 r ++ pyHex02 g ++ pyHex02 b).data
      = '#' :: ([a1, b1, a2, b2, a3, b3] : List Char) := by
    simp only [String.data_append, hab1, hab2, hab3]
    rfl
  have hdrop : ('#' :: ([a1, b1, a2, b2, a3, b3] : List Char)).dropWhile
      (fun c => c == '#') = [a1, b1, a2, b2, a3, b3] := by
    rw [List.dropWhile_cons, if_pos (by rfl), List.dropWhile_cons]
    rw [ha1]
    simp
  have e1 : String.mk (([a1, b1, a2, b2, a3, b3] : List Char).take 2) = pyHex02 r := by
    rw [show ([a1, b1, a2, b2, a3, b3] : List Char).take 2 = [a1, b1] from rfl, ← hab1]
  have e2 : String.mk ((([a1, b1, a2, b2, a3, b3] : List Char).drop 2).take 2)
      = pyHex02 g := by
    rw [show (([a1, b1, a2, b2, a3, b3] : List Char).drop 2).take 2 = [a2, b2] from rfl,
      ← hab2]
  have e3 : String.mk ((([a1, b1, a2, b2, a3, b3] : List Char).drop 4).take 2)
      = pyHex02 b := by
    rw [show (([a1, b1, a2, b2, a3, b3] : List Char).drop 4).take 2 = [a3, b3] from rfl,
      ← hab3]
  simp only [hex_to_rgb_entry, hsdata, hdrop, e1, e2, e3, Hr.2.1, Hg.2.1, Hb.2.1]

/-- Witness for C7 at the triple (0, 128, 255). -/
theorem C7_hex_round_trip_witness :
    ∃ s, return_hex_string (PalVal.color (0, 128, 255)) 1 defaultScondMod = .ok s
      ∧ hex_to_rgb_entry s = some (0, 128, 255) :=
  C7_hex_round_trip 0 128 255 1 (by norm_num) (by norm_num) (by norm_num) (by norm_num)
    (by norm_num) (by norm_num)

/-- The rewriter state splits line by line: the output is the ordered
concatenation of each line's own contribution, and the error log is the
per-line error enumeration. -/
theorem tryReplaceAux_spec (pal : Palette) (filename end_ : String) :
    ∀ (n : ℕ) (lines : List String),
      (tryReplaceAux pal filename end_ n lines).output
          = concatAll (lines.map (lineContribution pal end_))
        ∧ (tryReplaceAux pal filename end_ n lines).errors
          = enumErrors pal filename n lines := by
  intro n lines
  induction lines generalizing n with
  | nil => exact ⟨rfl, rfl⟩
  | cons l ls ih =>
    obtain ⟨iho, ihe⟩ := ih (n + 1)
    simp only [tryReplaceAux, List.map, concatAll, lineContribution, lineError, enumErrors]
    by_cases hp : containsKeyPattern l = true
    · simp only [if_pos hp]
      cases hrk : replace_key pal l with
      | ok repl => constructor <;> simp [iho, ihe, String.append_assoc]
      | error e => constructor <;> simp [iho, ihe]
    · simp only [if_neg hp]
      constructor <;> simp [iho, ihe, String.append_assoc]

/-- A line whose `lineError` is `e` puts `(n + i + 1, filename, e)` into the
error enumeration started at `n`. -/
theorem mem_enumErrors (pal : Palette) (filename : String) :
    ∀ (lines : List String) (n i : ℕ) (err : Err) (h : i < lines.length),
      lineError pal (lines.get ⟨i, h⟩) = some err →
      (n + i + 1, filename, err) ∈ enumErrors pal filename n lines := by
  intro lines
  induction lines with
  | nil => intro n i err h; simp at h
  | cons l ls ih =>
    intro n i err h hl
    cases i with
    | zero =>
      simp only [List.get] at hl
      simp only [enumErrors, hl]
      simp
    | succ j =>
      have hj : j < ls.length := by simpa using h
      have hmem := ih (n + 1) j err hj (by simpa using hl)
      have heq : n + (j + 1) + 1 = n + 1 + j + 1 := by omega
      rw [heq]
      unfold enumErrors
      cases hle : lineError pal l with
      | some e => exact List.mem_cons_of_mem _ hmem
      | none => exact hmem

/-- C4: line processing is independent and order-preserving — the whole
rewriter output is the concatenation, in input order, of a per-line function
of each single line, and the error log likewise depends on each line alone,
so one line's failure cannot abort or alter any other line. -/
theorem C4_line_independent_order_preserving (pal : Palette) (filename end_ : String)
    (lines : List String) :
    (try_replace_key_in_theme pal lines filename end_).output
        = concatAll (lines.map (lineContribution pal end_))
      ∧ (try_replace_key_in_theme pal lines filename end_).errors
        = enumErrors pal filename 0 lines :=
  tryReplaceAux_spec pal filename end_ 0 lines

/-- C1 (amended): for every line whose token resolution fails, the rewriter
records the 1-based line number, the source label and the failure in the
error log, and that line contributes nothing to the output — its original
content is omitted, not preserved — while the output stays the ordered
concatenation of the other lines' contributions. -/
theorem C1_failure_recorded_line_omitted (pal : Palette) (filename end_ : String)
    (lines : List String) (i : ℕ) (err : Err) (h : i < lines.length)
    (hl : lineError pal (lines.get ⟨i, h⟩) = some err) :
    (i + 1, filename, err) ∈ (try_replace_key_in_theme pal lines filename end_).errors
    ∧ (try_replace_key_in_theme pal lines filename end_).output
        = concatAll (lines.map (lineContribution pal end_))
    ∧ lineContribution pal end_ (lines.get ⟨i, h⟩) = "" := by
  obtain ⟨ho, he⟩ := tryReplaceAux_spec pal filename end_ 0 lines
  refine ⟨?_, ho, ?_⟩
  · have hmem := mem_enumErrors pal filename lines 0 i err h hl
    show (i + 1, filename, err) ∈ (tryReplaceAux pal filename end_ 0 lines).errors
    rw [he]
    simpa using hmem
  · unfold lineError at hl
    unfold lineContribution
    by_cases hp : containsKeyPattern (lines.get ⟨i, h⟩) = true
    · rw [if_pos hp] at hl ⊢
      cases hrk : replace_key pal (lines.get ⟨i, h⟩) with
      | ok repl => rw [hrk] at hl; simp at hl
      | error e => rfl
    · rw [if_neg hp] at hl
      simp at hl

/-- Witness for C1 at the single line `KEY(unknown).rgb` over a palette with
no `unknown` key: the error is logged for line 1 and the line contributes
nothing. -/
theorem C1_failure_recorded_line_omitted_witness :
    (1, "f", Err.unknownKey)
        ∈ (try_replace_key_in_theme palRed ["KEY(unknown).rgb"] "f" "\n").errors
    ∧ (try_replace_key_in_theme palRed ["KEY(unknown).rgb"] "f" "\n").output
        = concatAll (["KEY(unknown).rgb"].map (lineContribution palRed "\n"))
    ∧ lineContribution palRed "\n" "KEY(unknown).rgb" = "" :=
  C1_failure_recorded_line_omitted palRed "f" "\n" ["KEY(unknown).rgb"] 0 Err.unknownKey
    (by norm_num) (by decide)

/-- Counterexample for C1 as stated: with the line `KEY(unknown).rgb` the
rewriter output is empty — the original line is not preserved in the output,
though the error is recorded with its 1-based line number and label. -/
theorem C1_counterexample :
    (try_replace_key_in_theme palRed ["KEY(unknown).rgb"] "f" "\n").output = ""
    ∧ (try_replace_key_in_theme palRed ["KEY(unknown).rgb"] "f" "\n").errors
        = [(1, "f", Err.unknownKey)] := by
  exact ⟨by decide, by decide⟩
